import Mathlib

/-!
Shallow embedding of the ibiparnaiba server core: the in-memory repository
`MemStorage` (storage module) and the authorization-gated REST route handlers
(routes module). Timestamps are modelled as `Int` milliseconds (JS `Date`
comparisons are numeric); entity ids and principal ids are `Nat`; the JS `Map`
is modelled as an insertion-ordered association list (`Map.get` is first match,
`Map.set` replaces in place or appends, `Map.delete` removes, iteration order
is insertion order). A JS object spread `{ ...existing, ...patch }` is modelled
by a patch record whose fields are `Option`s: `some v` means the key is present
in the patch and overwrites, `none` means the key is absent and the existing
value is kept.
-/

/-- JS `Map.get`: the value stored under key `k`, if any. -/
def mapGet {α : Type} (m : List (Nat × α)) (k : Nat) : Option α :=
  (m.find? (fun kv => kv.1 == k)).map (·.2)

/-- JS `Map.has`: whether key `k` is present. -/
def mapHas {α : Type} (m : List (Nat × α)) (k : Nat) : Bool :=
  m.any (fun kv => kv.1 == k)

/-- JS `Map.set`: replace the entry for `k` in place if present, else append. -/
def mapSet {α : Type} (m : List (Nat × α)) (k : Nat) (v : α) : List (Nat × α) :=
  if mapHas m k then m.map (fun kv => if kv.1 == k then (k, v) else kv)
  else m ++ [(k, v)]

/-- JS `Map.delete`: remove the entry for `k` (the Bool result is `mapHas`). -/
def mapDelete {α : Type} (m : List (Nat × α)) (k : Nat) : List (Nat × α) :=
  m.filter (fun kv => kv.1 != k)

/-- JS `Array.from(map.values())`: the values in insertion order. -/
def mapValues {α : Type} (m : List (Nat × α)) : List α :=
  m.map (·.2)

/-- The `users` table row (shared schema). -/
structure User where
  id : Nat
  username : String
  password : String
  name : String
  email : String
  role : String
  avatarUrl : Option String
  createdAt : Int
deriving DecidableEq, Repr

/-- The `events` table row (shared schema). -/
structure Event where
  id : Nat
  title : String
  description : Option String
  eventType : String
  startTime : Int
  endTime : Int
  location : String
  createdBy : Nat
  createdAt : Int
deriving DecidableEq, Repr

/-- The `studies` table row (shared schema). -/
structure Study where
  id : Nat
  title : String
  content : String
  category : String
  authorId : Nat
  fileUrl : Option String
  createdAt : Int
deriving DecidableEq, Repr

/-- The `posts` table row (shared schema). -/
structure Post where
  id : Nat
  title : String
  content : String
  imageUrl : Option String
  authorId : Nat
  isPublished : Bool
  createdAt : Int
deriving DecidableEq, Repr

/-- The `forum_topics` table row (shared schema). -/
structure ForumTopic where
  id : Nat
  title : String
  content : String
  category : String
  authorId : Nat
  createdAt : Int
deriving DecidableEq, Repr

/-- The `forum_replies` table row (shared schema). -/
structure ForumReply where
  id : Nat
  content : String
  topicId : Nat
  authorId : Nat
  createdAt : Int
deriving DecidableEq, Repr

/-- The `site_settings` table row (shared schema). -/
structure SiteSetting where
  id : Nat
  key : String
  value : String
  updatedBy : Nat
  updatedAt : Int
deriving DecidableEq, Repr

/-- `InsertEvent` (insert schema: `events` minus `id`, `createdAt`). -/
structure InsertEvent where
  title : String
  description : Option String
  eventType : String
  startTime : Int
  endTime : Int
  location : String
  createdBy : Nat
deriving DecidableEq, Repr

/-- `InsertUser` (insert schema: `users` minus `id`, `createdAt`). -/
structure InsertUser where
  username : String
  password : String
  name : String
  email : String
  role : String
  avatarUrl : Option String
deriving DecidableEq, Repr

/-- `InsertStudy` (insert schema: `studies` minus `id`, `createdAt`). -/
structure InsertStudy where
  title : String
  content : String
  category : String
  authorId : Nat
  fileUrl : Option String
deriving DecidableEq, Repr

/-- `InsertPost` (insert schema: `posts` minus `id`, `createdAt`). -/
structure InsertPost where
  title : String
  content : String
  imageUrl : Option String
  authorId : Nat
  isPublished : Bool
deriving DecidableEq, Repr

/-- `InsertForumTopic` (insert schema: `forum_topics` minus `id`, `createdAt`). -/
structure InsertForumTopic where
  title : String
  content : String
  category : String
  authorId : Nat
deriving DecidableEq, Repr

/-- `InsertForumReply` (insert schema: `forum_replies` minus `id`, `createdAt`). -/
structure InsertForumReply where
  content : String
  topicId : Nat
  authorId : Nat
deriving DecidableEq, Repr

/-- `InsertSiteSetting` (insert schema: `site_settings` minus `id`, `updatedAt`). -/
structure InsertSiteSetting where
  key : String
  value : String
  updatedBy : Nat
deriving DecidableEq, Repr

/-- A runtime JSON patch body for an event, as the untyped `req.body` the PATCH
route forwards to `updateEvent`: any subset of the row's top-level keys may be
present (including `id`, `createdBy`, `createdAt` — nothing strips them). -/
structure EventPatch where
  id : Option Nat := none
  title : Option String := none
  description : Option (Option String) := none
  eventType : Option String := none
  startTime : Option Int := none
  endTime : Option Int := none
  location : Option String := none
  createdBy : Option Nat := none
  createdAt : Option Int := none
deriving DecidableEq, Repr

/-- A runtime JSON patch body for a user (keys of the `users` row). -/
structure UserPatch where
  id : Option Nat := none
  username : Option String := none
  password : Option String := none
  name : Option String := none
  email : Option String := none
  role : Option String := none
  avatarUrl : Option (Option String) := none
  createdAt : Option Int := none
deriving DecidableEq, Repr

/-- A runtime JSON patch body for a study. -/
structure StudyPatch where
  id : Option Nat := none
  title : Option String := none
  content : Option String := none
  category : Option String := none
  authorId : Option Nat := none
  fileUrl : Option (Option String) := none
  createdAt : Option Int := none
deriving DecidableEq, Repr

/-- A runtime JSON patch body for a post. -/
structure PostPatch where
  id : Option Nat := none
  title : Option String := none
  content : Option String := none
  imageUrl : Option (Option String) := none
  authorId : Option Nat := none
  isPublished : Option Bool := none
  createdAt : Option Int := none
deriving DecidableEq, Repr

/-- A runtime JSON patch body for a forum topic. -/
structure ForumTopicPatch where
  id : Option Nat := none
  title : Option String := none
  content : Option String := none
  category : Option String := none
  authorId : Option Nat := none
  createdAt : Option Int := none
deriving DecidableEq, Repr

/-- A runtime JSON patch body for a forum reply. -/
structure ForumReplyPatch where
  id : Option Nat := none
  content : Option String := none
  topicId : Option Nat := none
  authorId : Option Nat := none
  createdAt : Option Int := none
deriving DecidableEq, Repr

/-- `Partial<InsertSiteSetting>` patch (routes build it as `{key, value, updatedBy}`). -/
structure SiteSettingPatch where
  key : Option String := none
  value : Option String := none
  updatedBy : Option Nat := none
deriving DecidableEq, Repr

/-- `{ ...existingEvent, ...eventData }` in `updateEvent`. -/
def mergeEvent (e : Event) (p : EventPatch) : Event :=
  { id := p.id.getD e.id
    title := p.title.getD e.title
    description := p.description.getD e.description
    eventType := p.eventType.getD e.eventType
    startTime := p.startTime.getD e.startTime
    endTime := p.endTime.getD e.endTime
    location := p.location.getD e.location
    createdBy := p.createdBy.getD e.createdBy
    createdAt := p.createdAt.getD e.createdAt }

/-- `{ ...existingUser, ...userData }` in `updateUser`. -/
def mergeUser (u : User) (p : UserPatch) : User :=
  { id := p.id.getD u.id
    username := p.username.getD u.username
    password := p.password.getD u.password
    name := p.name.getD u.name
    email := p.email.getD u.email
    role := p.role.getD u.role
    avatarUrl := p.avatarUrl.getD u.avatarUrl
    createdAt := p.createdAt.getD u.createdAt }

/-- `{ ...existingStudy, ...studyData }` in `updateStudy`. -/
def mergeStudy (s : Study) (p : StudyPatch) : Study :=
  { id := p.id.getD s.id
    title := p.title.getD s.title
    content := p.content.getD s.content
    category := p.category.getD s.category
    authorId := p.authorId.getD s.authorId
    fileUrl := p.fileUrl.getD s.fileUrl
    createdAt := p.createdAt.getD s.createdAt }

/-- `{ ...existingPost, ...postData }` in `updatePost`. -/
def mergePost (t : Post) (p : PostPatch) : Post :=
  { id := p.id.getD t.id
    title := p.title.getD t.title
    content := p.content.getD t.content
    imageUrl := p.imageUrl.getD t.imageUrl
    authorId := p.authorId.getD t.authorId
    isPublished := p.isPublished.getD t.isPublished
    createdAt := p.createdAt.getD t.createdAt }

/-- `{ ...existingTopic, ...topicData }` in `updateForumTopic`. -/
def mergeForumTopic (t : ForumTopic) (p : ForumTopicPatch) : ForumTopic :=
  { id := p.id.getD t.id
    title := p.title.getD t.title
    content := p.content.getD t.content
    category := p.category.getD t.category
    authorId := p.authorId.getD t.authorId
    createdAt := p.createdAt.getD t.createdAt }

/-- `{ ...existingReply, ...replyData }` in `updateForumReply`. -/
def mergeForumReply (r : ForumReply) (p : ForumReplyPatch) : ForumReply :=
  { id := p.id.getD r.id
    content := p.content.getD r.content
    topicId := p.topicId.getD r.topicId
    authorId := p.authorId.getD r.authorId
    createdAt := p.createdAt.getD r.createdAt }

/-- `{ ...existingSetting, ...settingData, updatedAt: now }` in `updateSiteSetting`:
the timestamp is unconditionally refreshed. -/
def mergeSiteSetting (s : SiteSetting) (p : SiteSettingPatch) (now : Int) : SiteSetting :=
  { id := s.id
    key := p.key.getD s.key
    value := p.value.getD s.value
    updatedBy := p.updatedBy.getD s.updatedBy
    updatedAt := now }

/-- `MemStorage`: seven insertion-ordered maps plus per-kind id counters
(constructor puts every counter at 1 and every map empty). -/
structure MemStorage where
  usersData : List (Nat × User) := []
  eventsData : List (Nat × Event) := []
  studiesData : List (Nat × Study) := []
  postsData : List (Nat × Post) := []
  forumTopicsData : List (Nat × ForumTopic) := []
  forumRepliesData : List (Nat × ForumReply) := []
  siteSettingsData : List (Nat × SiteSetting) := []
  userIdCounter : Nat := 1
  eventIdCounter : Nat := 1
  studyIdCounter : Nat := 1
  postIdCounter : Nat := 1
  forumTopicIdCounter : Nat := 1
  forumReplyIdCounter : Nat := 1
  siteSettingIdCounter : Nat := 1
deriving DecidableEq, Repr

/-- `new MemStorage()`. -/
def MemStorage.new : MemStorage := {}

/-- `getEvent(id)`. -/
def getEvent (s : MemStorage) (id : Nat) : Option Event :=
  mapGet s.eventsData id

/-- `createEvent(eventData)`: assign `eventIdCounter++` as id, stamp `createdAt`
with the current time, store, return the full record. -/
def createEvent (s : MemStorage) (d : InsertEvent) (now : Int) : Event × MemStorage :=
  let id := s.eventIdCounter
  let e : Event :=
    { id := id, title := d.title, description := d.description,
      eventType := d.eventType, startTime := d.startTime, endTime := d.endTime,
      location := d.location, createdBy := d.createdBy, createdAt := now }
  (e, { s with eventsData := mapSet s.eventsData id e,
                eventIdCounter := s.eventIdCounter + 1 })

/-- `updateEvent(id, eventData)`: spread-merge onto the existing record, or
return the absent sentinel without touching the store. -/
def updateEvent (s : MemStorage) (id : Nat) (p : EventPatch) :
    Option Event × MemStorage :=
  match getEvent s id with
  | none => (none, s)
  | some e =>
      let u := mergeEvent e p
      (some u, { s with eventsData := mapSet s.eventsData id u })

/-- `deleteEvent(id)`: `Map.delete` — true iff an entry existed, entry removed. -/
def deleteEvent (s : MemStorage) (id : Nat) : Bool × MemStorage :=
  (mapHas s.eventsData id, { s with eventsData := mapDelete s.eventsData id })

/-- `getAllEvents()`. -/
def getAllEvents (s : MemStorage) : List Event :=
  mapValues s.eventsData

/-- A JS `number` as the upcoming-events count sees it: an integer or `NaN`
(`parseInt` of a non-numeric string). -/
inductive JsNum where
  | nan : JsNum
  | num : Int → JsNum
deriving DecidableEq, Repr

/-- Digit run to a natural number (radix 10). -/
def digitsToNat (cs : List Char) : Nat :=
  cs.foldl (fun a c => a * 10 + (c.toNat - 48)) 0

/-- Shared tail of `parseInt`: read leading decimal digits; `NaN` if none. -/
def parseIntDigits (sign : Int) (cs : List Char) : JsNum :=
  let ds := cs.takeWhile (·.isDigit)
  if ds.isEmpty then JsNum.nan else JsNum.num (sign * (digitsToNat ds : Int))

/-- JS `parseInt(str)` in radix 10: trim leading whitespace, optional sign,
leading decimal digits; `NaN` when no digit is found (hex `0x` auto-radix is
not modelled — such strings are numeric either way). -/
def parseIntJs (str : String) : JsNum :=
  match str.data.dropWhile (·.isWhitespace) with
  | '-' :: rest => parseIntDigits (-1) rest
  | '+' :: rest => parseIntDigits 1 rest
  | rest => parseIntDigits 1 rest

/-- JS `array.slice(0, end)`: `NaN` converts to 0; a negative `end` counts from
the end of the array. -/
def jsSliceTo {α : Type} (l : List α) : JsNum → List α
  | JsNum.nan => l.take 0
  | JsNum.num n => if 0 ≤ n then l.take n.toNat else l.take (l.length - (-n).toNat)

/-- Ascending comparator `(a, b) => new Date(a.startTime) - new Date(b.startTime)`. -/
def byStartTime (a b : Event) : Bool :=
  a.startTime ≤ b.startTime

/-- Insert an event into a list already ascending under `byStartTime`, after
every element that compares `≤` (the stable position JS `sort` gives it). -/
def insertSorted (e : Event) : List Event → List Event
  | [] => [e]
  | x :: xs => if byStartTime x e then x :: insertSorted e xs else e :: x :: xs

/-- JS `array.sort((a, b) => a.startTime - b.startTime)`: a stable ascending
sort, modelled as insertion sort. -/
def sortByStartTime (l : List Event) : List Event :=
  l.foldr insertSorted []

/-- `getUpcomingEvents(count = 5)`: filter `startTime > now`, sort ascending by
`startTime`, `slice(0, count)`. The argument is `none` when the caller omits it
(JS default parameter 5) and may be `NaN` when the route parsed a non-numeric
query string. -/
def getUpcomingEvents (s : MemStorage) (now : Int) (count : Option JsNum) : List Event :=
  let c := count.getD (JsNum.num 5)
  jsSliceTo (sortByStartTime ((mapValues s.eventsData).filter
    (fun e => now < e.startTime))) c

/-- `getUser(id)`. -/
def getUser (s : MemStorage) (id : Nat) : Option User :=
  mapGet s.usersData id

/-- `createUser(insertUser)`. -/
def createUser (s : MemStorage) (d : InsertUser) (now : Int) : User × MemStorage :=
  let id := s.userIdCounter
  let u : User :=
    { id := id, username := d.username, password := d.password, name := d.name,
      email := d.email, role := d.role, avatarUrl := d.avatarUrl, createdAt := now }
  (u, { s with usersData := mapSet s.usersData id u,
                userIdCounter := s.userIdCounter + 1 })

/-- `updateUser(id, userData)`. -/
def updateUser (s : MemStorage) (id : Nat) (p : UserPatch) :
    Option User × MemStorage :=
  match getUser s id with
  | none => (none, s)
  | some u =>
      let m := mergeUser u p
      (some m, { s with usersData := mapSet s.usersData id m })

/-- `getAllUsers()`. -/
def getAllUsers (s : MemStorage) : List User :=
  mapValues s.usersData

/-- `getStudy(id)`. -/
def getStudy (s : MemStorage) (id : Nat) : Option Study :=
  mapGet s.studiesData id

/-- `updateStudy(id, studyData)`. -/
def updateStudy (s : MemStorage) (id : Nat) (p : StudyPatch) :
    Option Study × MemStorage :=
  match getStudy s id with
  | none => (none, s)
  | some st =>
      let m := mergeStudy st p
      (some m, { s with studiesData := mapSet s.studiesData id m })

/-- `deleteStudy(id)`. -/
def deleteStudy (s : MemStorage) (id : Nat) : Bool × MemStorage :=
  (mapHas s.studiesData id, { s with studiesData := mapDelete s.studiesData id })

/-- `getPost(id)`. -/
def getPost (s : MemStorage) (id : Nat) : Option Post :=
  mapGet s.postsData id

/-- `updatePost(id, postData)`. -/
def updatePost (s : MemStorage) (id : Nat) (p : PostPatch) :
    Option Post × MemStorage :=
  match getPost s id with
  | none => (none, s)
  | some t =>
      let m := mergePost t p
      (some m, { s with postsData := mapSet s.postsData id m })

/-- `deletePost(id)`. -/
def deletePost (s : MemStorage) (id : Nat) : Bool × MemStorage :=
  (mapHas s.postsData id, { s with postsData := mapDelete s.postsData id })

/-- `getForumTopic(id)`. -/
def getForumTopic (s : MemStorage) (id : Nat) : Option ForumTopic :=
  mapGet s.forumTopicsData id

/-- `updateForumTopic(id, topicData)`. -/
def updateForumTopic (s : MemStorage) (id : Nat) (p : ForumTopicPatch) :
    Option ForumTopic × MemStorage :=
  match getForumTopic s id with
  | none => (none, s)
  | some t =>
      let m := mergeForumTopic t p
      (some m, { s with forumTopicsData := mapSet s.forumTopicsData id m })

/-- `deleteForumTopic(id)`. -/
def deleteForumTopic (s : MemStorage) (id : Nat) : Bool × MemStorage :=
  (mapHas s.forumTopicsData id,
   { s with forumTopicsData := mapDelete s.forumTopicsData id })

/-- `getForumReply(id)`. -/
def getForumReply (s : MemStorage) (id : Nat) : Option ForumReply :=
  mapGet s.forumRepliesData id

/-- `updateForumReply(id, replyData)`. -/
def updateForumReply (s : MemStorage) (id : Nat) (p : ForumReplyPatch) :
    Option ForumReply × MemStorage :=
  match getForumReply s id with
  | none => (none, s)
  | some r =>
      let m := mergeForumReply r p
      (some m, { s with forumRepliesData := mapSet s.forumRepliesData id m })

/-- `deleteForumReply(id)`. -/
def deleteForumReply (s : MemStorage) (id : Nat) : Bool × MemStorage :=
  (mapHas s.forumRepliesData id,
   { s with forumRepliesData := mapDelete s.forumRepliesData id })

/-- `getSiteSetting(key)`: linear scan over the values, first key match. -/
def getSiteSetting (s : MemStorage) (key : String) : Option SiteSetting :=
  (mapValues s.siteSettingsData).find? (fun st => st.key == key)

/-- `createSiteSetting(settingData)`: assign `siteSettingIdCounter++`, stamp
`updatedAt`, store. -/
def createSiteSetting (s : MemStorage) (d : InsertSiteSetting) (now : Int) :
    SiteSetting × MemStorage :=
  let id := s.siteSettingIdCounter
  let st : SiteSetting :=
    { id := id, key := d.key, value := d.value, updatedBy := d.updatedBy,
      updatedAt := now }
  (st, { s with siteSettingsData := mapSet s.siteSettingsData id st,
                siteSettingIdCounter := s.siteSettingIdCounter + 1 })

/-- `updateSiteSetting(id, settingData)`: spread-merge and refresh `updatedAt`. -/
def updateSiteSetting (s : MemStorage) (id : Nat) (p : SiteSettingPatch)
    (now : Int) : Option SiteSetting × MemStorage :=
  match mapGet s.siteSettingsData id with
  | none => (none, s)
  | some ex =>
      let m := mergeSiteSetting ex p now
      (some m, { s with siteSettingsData := mapSet s.siteSettingsData id m })

/-- `getAllSiteSettings()`. -/
def getAllSiteSettings (s : MemStorage) : List SiteSetting :=
  mapValues s.siteSettingsData

/-- The authenticated principal (`req.user`): id and role. Route handlers below
model the code after the `isAuthenticated` / `isAdmin` middleware has passed. -/
structure Principal where
  id : Nat
  role : String
deriving DecidableEq, Repr

/-- `GET /api/events/upcoming`: `req.query.count ? parseInt(req.query.count) :
undefined` (an absent or empty — falsy — query string yields `undefined`, which
hits the storage-layer default of 5), then 200 with the result. -/
def getUpcomingEventsRoute (s : MemStorage) (now : Int) (countParam : Option String) :
    Nat × List Event :=
  let count : Option JsNum :=
    match countParam with
    | some q => if q == "" then none else some (parseIntJs q)
    | none => none
  (200, getUpcomingEvents s now count)

/-- `PATCH /api/events/:id`: load; 404 if absent; 403 unless
`createdBy === user.id` or `role === "admin"`; else forward the raw body to
`updateEvent` and answer 200 with the updated record. -/
def patchEventRoute (s : MemStorage) (u : Principal) (eventId : Nat)
    (body : EventPatch) : Nat × Option Event × MemStorage :=
  match getEvent s eventId with
  | none => (404, none, s)
  | some e =>
      if e.createdBy != u.id && u.role != "admin" then (403, none, s)
      else
        let r := updateEvent s eventId body
        (200, r.1, r.2)

/-- `DELETE /api/events/:id`: load; 404 if absent; 403 unless owner or admin;
else `deleteEvent` — 200 on true, 404 on false. -/
def deleteEventRoute (s : MemStorage) (u : Principal) (eventId : Nat) :
    Nat × MemStorage :=
  match getEvent s eventId with
  | none => (404, s)
  | some e =>
      if e.createdBy != u.id && u.role != "admin" then (403, s)
      else
        let r := deleteEvent s eventId
        (if r.1 then 200 else 404, r.2)

/-- `PATCH /api/studies/:id` (gate on `authorId`). -/
def patchStudyRoute (s : MemStorage) (u : Principal) (studyId : Nat)
    (body : StudyPatch) : Nat × Option Study × MemStorage :=
  match getStudy s studyId with
  | none => (404, none, s)
  | some st =>
      if st.authorId != u.id && u.role != "admin" then (403, none, s)
      else
        let r := updateStudy s studyId body
        (200, r.1, r.2)

/-- `DELETE /api/studies/:id`. -/
def deleteStudyRoute (s : MemStorage) (u : Principal) (studyId : Nat) :
    Nat × MemStorage :=
  match getStudy s studyId with
  | none => (404, s)
  | some st =>
      if st.authorId != u.id && u.role != "admin" then (403, s)
      else
        let r := deleteStudy s studyId
        (if r.1 then 200 else 404, r.2)

/-- `PATCH /api/posts/:id` (gate on `authorId`). -/
def patchPostRoute (s : MemStorage) (u : Principal) (postId : Nat)
    (body : PostPatch) : Nat × Option Post × MemStorage :=
  match getPost s postId with
  | none => (404, none, s)
  | some t =>
      if t.authorId != u.id && u.role != "admin" then (403, none, s)
      else
        let r := updatePost s postId body
        (200, r.1, r.2)

/-- `DELETE /api/posts/:id`. -/
def deletePostRoute (s : MemStorage) (u : Principal) (postId : Nat) :
    Nat × MemStorage :=
  match getPost s postId with
  | none => (404, s)
  | some t =>
      if t.authorId != u.id && u.role != "admin" then (403, s)
      else
        let r := deletePost s postId
        (if r.1 then 200 else 404, r.2)

/-- `PATCH /api/forum/topics/:id` (gate on `authorId`). -/
def patchForumTopicRoute (s : MemStorage) (u : Principal) (topicId : Nat)
    (body : ForumTopicPatch) : Nat × Option ForumTopic × MemStorage :=
  match getForumTopic s topicId with
  | none => (404, none, s)
  | some t =>
      if t.authorId != u.id && u.role != "admin" then (403, none, s)
      else
        let r := updateForumTopic s topicId body
        (200, r.1, r.2)

/-- `DELETE /api/forum/topics/:id`. -/
def deleteForumTopicRoute (s : MemStorage) (u : Principal) (topicId : Nat) :
    Nat × MemStorage :=
  match getForumTopic s topicId with
  | none => (404, s)
  | some t =>
      if t.authorId != u.id && u.role != "admin" then (403, s)
      else
        let r := deleteForumTopic s topicId
        (if r.1 then 200 else 404, r.2)

/-- `PATCH /api/forum/replies/:id` (gate on `authorId`). -/
def patchForumReplyRoute (s : MemStorage) (u : Principal) (replyId : Nat)
    (body : ForumReplyPatch) : Nat × Option ForumReply × MemStorage :=
  match getForumReply s replyId with
  | none => (404, none, s)
  | some r =>
      if r.authorId != u.id && u.role != "admin" then (403, none, s)
      else
        let q := updateForumReply s replyId body
        (200, q.1, q.2)

/-- `DELETE /api/forum/replies/:id`. -/
def deleteForumReplyRoute (s : MemStorage) (u : Principal) (replyId : Nat) :
    Nat × MemStorage :=
  match getForumReply s replyId with
  | none => (404, s)
  | some r =>
      if r.authorId != u.id && u.role != "admin" then (403, s)
      else
        let q := deleteForumReply s replyId
        (if q.1 then 200 else 404, q.2)

/-- The shape the user routes serialize: `const { password, ...rest } = user`. -/
structure PublicUser where
  id : Nat
  username : String
  name : String
  email : String
  role : String
  avatarUrl : Option String
  createdAt : Int
deriving DecidableEq, Repr

/-- `const { password, ...userWithoutPassword } = user`. -/
def omitPassword (u : User) : PublicUser :=
  { id := u.id, username := u.username, name := u.name, email := u.email,
    role := u.role, avatarUrl := u.avatarUrl, createdAt := u.createdAt }

/-- `GET /api/users` (behind `isAdmin`): 200 with every user mapped through the
password-stripping destructure. -/
def getUsersRoute (s : MemStorage) : Nat × List PublicUser :=
  (200, (getAllUsers s).map omitPassword)

/-- `PATCH /api/users/:id` (behind `isAdmin`): drop `password` from the body
(`const { password, ...updateData } = req.body`), `updateUser`, 200 with the
password-stripped result, or 404 when absent. -/
def patchUserRoute (s : MemStorage) (userId : Nat) (body : UserPatch) :
    Nat × Option PublicUser × MemStorage :=
  let updateData : UserPatch := { body with password := none }
  let r := updateUser s userId updateData
  match r.1 with
  | some usr => (200, some (omitPassword usr), r.2)
  | none => (404, none, r.2)

/-- The `{key, value}` body of the site-settings routes; `key` is `none` when
the JSON object lacks the property. -/
structure SettingBody where
  key : Option String := none
  value : String := ""
deriving DecidableEq, Repr

/-- JS truthiness of the destructured `key` (`!key` skips `undefined` and `""`). -/
def truthyKey : Option String → Bool
  | none => false
  | some k => !(k == "")

/-- `POST /api/site-settings` (behind `isAdmin`): 400 on a falsy key; else look
the key up — update the found record's id with `{key, value, updatedBy: user.id}`
and answer 200, or create and answer 201. -/
def postSiteSettingsRoute (s : MemStorage) (u : Principal) (body : SettingBody)
    (now : Int) : Nat × Option SiteSetting × MemStorage :=
  if !truthyKey body.key then (400, none, s)
  else
    let k := body.key.getD ""
    match getSiteSetting s k with
    | some ex =>
        let r := updateSiteSetting s ex.id
          { key := some k, value := some body.value, updatedBy := some u.id } now
        (200, r.1, r.2)
    | none =>
        let r := createSiteSetting s
          { key := k, value := body.value, updatedBy := u.id } now
        (201, some r.1, r.2)

/-- One iteration of the batch loop for an item whose key is truthy: update if
the key exists, else create, stamping `updatedBy: user.id`. -/
def upsertSiteSetting (s : MemStorage) (u : Principal) (k v : String)
    (now : Int) : Option SiteSetting × MemStorage :=
  match getSiteSetting s k with
  | some ex =>
      updateSiteSetting s ex.id
        { key := some k, value := some v, updatedBy := some u.id } now
  | none =>
      let r := createSiteSetting s { key := k, value := v, updatedBy := u.id } now
      (some r.1, r.2)

/-- `POST /api/site-settings/batch` (behind `isAdmin`), given an array body:
iterate in order, `continue` on falsy keys, upsert the rest, answer 200 with
`count = results.length`. -/
def postSiteSettingsBatchRoute (s : MemStorage) (u : Principal)
    (items : List SettingBody) (now : Int) : Nat × Nat × MemStorage :=
  let r := items.foldl
    (fun (acc : Nat × MemStorage) item =>
      if truthyKey item.key then
        let q := upsertSiteSetting acc.2 u (item.key.getD "") item.value now
        (acc.1 + 1, q.2)
      else acc)
    (0, s)
  (200, r.1, r.2)

/-- Statement apparatus: the same store with every stored user's password
rewritten by `f` (keyed by map key) — used to state that responses do not
depend on stored passwords. -/
def setPasswords (f : Nat → String) (s : MemStorage) : MemStorage :=
  { s with usersData := s.usersData.map (fun kv => (kv.1, { kv.2 with password := f kv.1 })) }

/-- Statement apparatus: an interleaved client action on the events collection. -/
inductive EventOp where
  | create : InsertEvent → EventOp
  | update : Nat → EventPatch → EventOp
  | del : Nat → EventOp
deriving Repr

/-- Run a sequence of event operations, collecting the ids returned by the
creates in order. -/
def runEventOps (s : MemStorage) (now : Int) : List EventOp → MemStorage × List Nat
  | [] => (s, [])
  | EventOp.create d :: ops =>
      let r := createEvent s d now
      let rest := runEventOps r.2 now ops
      (rest.1, r.1.id :: rest.2)
  | EventOp.update id p :: ops =>
      runEventOps (updateEvent s id p).2 now ops
  | EventOp.del id :: ops =>
      runEventOps (deleteEvent s id).2 now ops

/-- Statement apparatus: how many live site-setting records carry key `k`. -/
def keyCount (s : MemStorage) (k : String) : Nat :=
  ((mapValues s.siteSettingsData).filter (fun st => st.key == k)).length

/-- Statement apparatus: the site-settings store invariant maintained by the
upsert routes — map keys are distinct and below the id counter, each record's
`id` equals its map key, and no key string occurs twice. -/
def settingsOk (s : MemStorage) : Prop :=
  (s.siteSettingsData.map (·.1)).Nodup ∧
  (∀ kv ∈ s.siteSettingsData, kv.1 < s.siteSettingIdCounter ∧ kv.2.id = kv.1) ∧
  (∀ k, keyCount s k ≤ 1)

/-- Statement apparatus: a sequence of single-setting POSTs, threading state. -/
def postSettingsSeq (u : Principal) (now : Int) (s : MemStorage) :
    List SettingBody → MemStorage
  | [] => s
  | b :: bs => postSettingsSeq u now (postSiteSettingsRoute s u b now).2.2 bs

/-- A concrete event for witnesses (id `i`, `startTime` `st`). -/
def sampleEvent (i : Nat) (st : Int) : Event :=
  { id := i, title := "e", description := none, eventType := "t",
    startTime := st, endTime := st + 1, location := "l", createdBy := 1,
    createdAt := 0 }

/-- A concrete store holding the spec scenario events with `startTime`s
`{+1, +3, -1, +2}` relative to `now = 0`. -/
def sampleStore : MemStorage :=
  { MemStorage.new with
    eventsData := [(1, sampleEvent 1 1), (2, sampleEvent 2 3),
                   (3, sampleEvent 3 (-1)), (4, sampleEvent 4 2)],
    eventIdCounter := 5 }

/-- A concrete stored site setting for witnesses. -/
def sampleSetting : SiteSetting :=
  { id := 1, key := "siteName", value := "A", updatedBy := 1, updatedAt := 0 }

/-- A concrete store holding `sampleSetting`. -/
def sampleSettingsStore : MemStorage :=
  { MemStorage.new with
    siteSettingsData := [(1, sampleSetting)]
    siteSettingIdCounter := 2 }

/-- A title-only event patch for witnesses. -/
def titlePatch : EventPatch := { title := some "new" }

/-- A value-only site-setting patch for witnesses. -/
def valuePatch : SiteSettingPatch := { value := some "B" }

/-! ## Lemmas about the JS `Map` model -/

theorem mapHas_eq_isSome {α : Type} (m : List (Nat × α)) (k : Nat) :
    mapHas m k = (mapGet m k).isSome := by
  induction m with
  | nil => rfl
  | cons kv rest ih =>
      by_cases h : kv.1 == k
      · simp [mapHas, mapGet, List.find?, h, List.any_cons]
      · simpa [mapHas, mapGet, List.find?, h, List.any_cons] using ih

theorem mapGet_delete_self {α : Type} (m : List (Nat × α)) (k : Nat) :
    mapGet (mapDelete m k) k = none := by
  induction m with
  | nil => rfl
  | cons kv rest ih =>
      by_cases h : kv.1 == k
      · simpa [mapDelete, List.filter, bne, h] using ih
      · simpa [mapDelete, mapGet, List.filter, List.find?, bne, h] using ih

theorem mapDelete_idem {α : Type} (m : List (Nat × α)) (k : Nat) :
    mapDelete (mapDelete m k) k = mapDelete m k := by
  induction m with
  | nil => rfl
  | cons kv rest ih =>
      by_cases h : kv.1 == k
      · simp [mapDelete, List.filter, bne, h, ih]
      · simp [mapDelete, List.filter, bne, h, ih]

theorem mapGet_replace_self {α : Type} (m : List (Nat × α)) (k : Nat) (v : α)
    (h : mapHas m k = true) :
    mapGet (m.map (fun kv => if kv.1 == k then (k, v) else kv)) k = some v := by
  induction m with
  | nil => simp [mapHas] at h
  | cons kv rest ih =>
      by_cases hk : kv.1 == k
      · simp [mapGet, List.find?, hk]
      · have hrest : mapHas rest k = true := by
          simpa [mapHas, List.any_cons, hk] using h
        simpa [mapGet, List.find?, hk] using ih hrest

theorem mapGet_append_self {α : Type} (m : List (Nat × α)) (k : Nat) (v : α)
    (h : mapHas m k = false) :
    mapGet (m ++ [(k, v)]) k = some v := by
  induction m with
  | nil => simp [mapGet, List.find?]
  | cons kv rest ih =>
      simp only [mapHas, List.any_cons, Bool.or_eq_false_iff] at h
      have hrest : mapHas rest k = false := h.2
      simpa [mapGet, List.find?, h.1] using ih hrest

theorem mapGet_set_self {α : Type} (m : List (Nat × α)) (k : Nat) (v : α) :
    mapGet (mapSet m k v) k = some v := by
  unfold mapSet
  by_cases h : mapHas m k
  · simpa [h] using mapGet_replace_self m k v h
  · simpa [h] using mapGet_append_self m k v (by simpa using h)

/-! ## C8: delete semantics -/

/-- C8. `deleteEvent(id)` returns true exactly when a record with that id
exists (and removes it: a subsequent lookup misses); on an absent id it returns
false and, in particular, a second delete right after a first returns false and
leaves the store exactly as the first left it. -/
theorem deleteEvent_true_iff_present (s : MemStorage) (id : Nat) :
    ((deleteEvent s id).1 = true ↔ (getEvent s id).isSome = true)
    ∧ getEvent (deleteEvent s id).2 id = none
    ∧ (deleteEvent (deleteEvent s id).2 id).1 = false
    ∧ (deleteEvent (deleteEvent s id).2 id).2 = (deleteEvent s id).2 := by
  refine ⟨?_, ?_, ?_, ?_⟩
  · simp [deleteEvent, getEvent, mapHas_eq_isSome]
  · simpa [deleteEvent, getEvent] using mapGet_delete_self s.eventsData id
  · have h := mapGet_delete_self s.eventsData id
    simp [deleteEvent, getEvent, mapHas_eq_isSome, h]
  · simp [deleteEvent, mapDelete_idem]

/-! ## C10: NaN count on the upcoming route -/

/-- C10. `GET /api/events/upcoming?count=N` with a non-numeric, non-empty `N`
parses the count to `NaN`; `slice(0, NaN)` is the empty array, so the route
answers 200 with `[]` instead of falling back to the default; with the
parameter absent the default of 5 applies. -/
theorem upcoming_route_nan_count_empty (s : MemStorage) (now : Int) (q : String)
    (hq : parseIntJs q = JsNum.nan) (hne : (q == "") = false) :
    getUpcomingEventsRoute s now (some q) = (200, [])
    ∧ getUpcomingEventsRoute s now none
      = (200, getUpcomingEvents s now (some (JsNum.num 5))) := by
  constructor
  · simp [getUpcomingEventsRoute, hne, hq, getUpcomingEvents, jsSliceTo]
  · rfl

/-- Witness for `upcoming_route_nan_count_empty` at the concrete query string
`"abc"` and the empty store. -/
theorem upcoming_route_nan_count_empty_witness :
    getUpcomingEventsRoute MemStorage.new 0 (some "abc") = (200, [])
    ∧ getUpcomingEventsRoute MemStorage.new 0 none
      = (200, getUpcomingEvents MemStorage.new 0 (some (JsNum.num 5))) :=
  upcoming_route_nan_count_empty MemStorage.new 0 "abc" (by decide) (by decide)

/-! ## C7: upcoming events query -/

theorem byStartTime_trans : ∀ a b c : Event, byStartTime a b = true →
    byStartTime b c = true → byStartTime a c = true := by
  intro a b c hab hbc
  simp only [byStartTime, decide_eq_true_eq] at hab hbc ⊢
  exact le_trans hab hbc

theorem byStartTime_total : ∀ a b : Event, (byStartTime a b || byStartTime b a) = true := by
  intro a b
  simp only [byStartTime, Bool.or_eq_true, decide_eq_true_eq]
  exact Int.le_total a.startTime b.startTime

theorem insertSorted_perm (e : Event) (l : List Event) :
    (insertSorted e l).Perm (e :: l) := by
  induction l with
  | nil => exact List.Perm.refl _
  | cons x xs ih =>
      by_cases h : byStartTime x e
      · simp only [insertSorted, h, if_true]
        exact (ih.cons x).trans (List.Perm.swap e x xs)
      · simp [insertSorted, h]

theorem insertSorted_pairwise (e : Event) (l : List Event)
    (h : l.Pairwise (fun a b => byStartTime a b = true)) :
    (insertSorted e l).Pairwise (fun a b => byStartTime a b = true) := by
  induction l with
  | nil => simp [insertSorted]
  | cons x xs ih =>
      rcases List.pairwise_cons.mp h with ⟨hx, hxs⟩
      by_cases hc : byStartTime x e
      · simp only [insertSorted, hc, if_true]
        refine List.pairwise_cons.mpr ⟨?_, ih hxs⟩
        intro b hb
        rcases List.mem_cons.mp ((insertSorted_perm e xs).mem_iff.mp hb) with hb' | hb'
        · rw [hb']; exact hc
        · exact hx b hb'
      · simp only [insertSorted, hc, if_false]
        have hex : byStartTime e x = true := by
          have htot := byStartTime_total x e
          rw [Bool.or_eq_true] at htot
          rcases htot with h1 | h1
          · exact absurd h1 hc
          · exact h1
        refine List.pairwise_cons.mpr ⟨?_, h⟩
        intro b hb
        rcases List.mem_cons.mp hb with hb' | hb'
        · rw [hb']; exact hex
        · exact byStartTime_trans e x b hex (hx b hb')

theorem sortByStartTime_perm (l : List Event) : (sortByStartTime l).Perm l := by
  induction l with
  | nil => exact List.Perm.refl _
  | cons x xs ih =>
      have : sortByStartTime (x :: xs) = insertSorted x (sortByStartTime xs) := rfl
      rw [this]
      exact (insertSorted_perm x (sortByStartTime xs)).trans (ih.cons x)

theorem sortByStartTime_pairwise (l : List Event) :
    (sortByStartTime l).Pairwise (fun a b => byStartTime a b = true) := by
  induction l with
  | nil => simp [sortByStartTime]
  | cons x xs ih => exact insertSorted_pairwise x (sortByStartTime xs) ih

theorem getUpcomingEvents_eq_take (s : MemStorage) (now : Int) (count : Nat) :
    getUpcomingEvents s now (some (JsNum.num count))
    = (sortByStartTime ((mapValues s.eventsData).filter
        (fun e => now < e.startTime))).take count := by
  simp [getUpcomingEvents, jsSliceTo, Int.natCast_nonneg, Int.toNat_ofNat]

/-- C7. `getUpcomingEvents(count)` (default 5) keeps exactly the strictly
future events: the result is sorted ascending by `startTime`, contains only
stored events with `startTime > now`, has length `min count` (number of future
events), is a permutation of all future events whenever they fit in `count`,
and every future event it drops starts no earlier than anything it returns;
omitting the argument is the same as passing 5. -/
theorem getUpcomingEvents_spec (s : MemStorage) (now : Int) (count : Nat) :
    (getUpcomingEvents s now (some (JsNum.num count))).Pairwise
        (fun a b => a.startTime ≤ b.startTime)
    ∧ (∀ e ∈ getUpcomingEvents s now (some (JsNum.num count)),
        e ∈ mapValues s.eventsData ∧ now < e.startTime)
    ∧ (getUpcomingEvents s now (some (JsNum.num count))).length
        = min count ((mapValues s.eventsData).filter (fun e => now < e.startTime)).length
    ∧ (((mapValues s.eventsData).filter (fun e => now < e.startTime)).length ≤ count →
        (getUpcomingEvents s now (some (JsNum.num count))).Perm
          ((mapValues s.eventsData).filter (fun e => now < e.startTime)))
    ∧ (∀ a ∈ getUpcomingEvents s now (some (JsNum.num count)),
        ∀ b ∈ (mapValues s.eventsData).filter (fun e => now < e.startTime),
          b ∉ getUpcomingEvents s now (some (JsNum.num count)) →
            a.startTime ≤ b.startTime)
    ∧ getUpcomingEvents s now none = getUpcomingEvents s now (some (JsNum.num 5)) := by
  have hperm := sortByStartTime_perm
    ((mapValues s.eventsData).filter (fun e => now < e.startTime))
  have hsorted := sortByStartTime_pairwise
    ((mapValues s.eventsData).filter (fun e => now < e.startTime))
  rw [getUpcomingEvents_eq_take]
  refine ⟨?_, ?_, ?_, ?_, ?_, rfl⟩
  · have := List.Pairwise.sublist (List.take_sublist count _) hsorted
    exact this.imp (fun h => by simpa [byStartTime, decide_eq_true_eq] using h)
  · intro e he
    have hm : e ∈ sortByStartTime ((mapValues s.eventsData).filter
        (fun x => now < x.startTime)) :=
      (List.take_sublist count _).subset he
    have hf := hperm.mem_iff.mp hm
    have := List.mem_filter.mp hf
    exact ⟨this.1, by simpa [decide_eq_true_eq] using this.2⟩
  · rw [List.length_take, hperm.length_eq]
  · intro hle
    have hlen : (sortByStartTime ((mapValues s.eventsData).filter
        (fun e => now < e.startTime))).length ≤ count := by
      rw [hperm.length_eq]; exact hle
    rw [List.take_of_length_le hlen]
    exact hperm
  · intro a ha b hb hnb
    have hsplit := List.take_append_drop count
      (sortByStartTime ((mapValues s.eventsData).filter (fun e => now < e.startTime)))
    have hpw : (sortByStartTime ((mapValues s.eventsData).filter
        (fun e => now < e.startTime))).Pairwise
        (fun x y => byStartTime x y = true) := hsorted
    rw [← hsplit] at hpw
    have hbm : b ∈ sortByStartTime ((mapValues s.eventsData).filter
        (fun e => now < e.startTime)) := hperm.mem_iff.mpr hb
    rw [← hsplit, List.mem_append] at hbm
    have hbdrop : b ∈ (sortByStartTime ((mapValues s.eventsData).filter
        (fun e => now < e.startTime))).drop count := by
      cases hbm with
      | inl h => exact absurd h hnb
      | inr h => exact h
    have := (List.pairwise_append.mp hpw).2.2 a ha b hbdrop
    simpa [byStartTime, decide_eq_true_eq] using this

/-- Witness for `getUpcomingEvents_spec`: on the spec scenario,
`getUpcomingEvents(3)` returns exactly the three future events in ascending
order, and the truncation-free permutation clause applies. -/
theorem getUpcomingEvents_spec_witness :
    getUpcomingEvents sampleStore 0 (some (JsNum.num 3))
      = [sampleEvent 1 1, sampleEvent 4 2, sampleEvent 2 3]
    ∧ (getUpcomingEvents sampleStore 0 (some (JsNum.num 3))).Perm
        ((mapValues sampleStore.eventsData).filter (fun e => (0 : Int) < e.startTime)) :=
  ⟨by decide, (getUpcomingEvents_spec sampleStore 0 3).2.2.2.1 (by decide)⟩

/-! ## C9: raw PATCH bodies overwrite protected fields -/

/-- C9. The events PATCH handler forwards `req.body` to `updateEvent` without
schema validation, and the spread merge replaces every supplied top-level key:
for an existing event and a principal that passes the ownership gate, the
route answers 200 and stores `mergeEvent e body` under the original map key,
so a body carrying `createdBy` transfers ownership, and one carrying `id` or
`createdAt` overwrites them — letting the stored record's `id` diverge from its
map key. -/
theorem patch_raw_body_overwrites_protected_fields (s : MemStorage)
    (u : Principal) (eventId : Nat) (e : Event) (body : EventPatch)
    (he : getEvent s eventId = some e)
    (hgate : (e.createdBy != u.id && u.role != "admin") = false) :
    (patchEventRoute s u eventId body).1 = 200
    ∧ (patchEventRoute s u eventId body).2.1 = some (mergeEvent e body)
    ∧ mapGet (patchEventRoute s u eventId body).2.2.eventsData eventId
        = some (mergeEvent e body)
    ∧ (∀ x, body.createdBy = some x → (mergeEvent e body).createdBy = x)
    ∧ (∀ j, body.id = some j → (mergeEvent e body).id = j)
    ∧ (∀ t, body.createdAt = some t → (mergeEvent e body).createdAt = t) := by
  have hroute : patchEventRoute s u eventId body
      = (200, some (mergeEvent e body),
         { s with eventsData := mapSet s.eventsData eventId (mergeEvent e body) }) := by
    simp [patchEventRoute, he, hgate, updateEvent]
  refine ⟨by rw [hroute], by rw [hroute], ?_, ?_, ?_, ?_⟩
  · rw [hroute]
    exact mapGet_set_self s.eventsData eventId (mergeEvent e body)
  · intro x hx; simp [mergeEvent, hx]
  · intro j hj; simp [mergeEvent, hj]
  · intro t ht; simp [mergeEvent, ht]

/-- Witness for `patch_raw_body_overwrites_protected_fields`: the owner of the
sample event PATCHes it with a body that sets `createdBy`, `id` and
`createdAt`; all three are overwritten. -/
theorem patch_raw_body_overwrites_protected_fields_witness :
    (patchEventRoute sampleStore ⟨1, "member"⟩ 1
        { createdBy := some 9, id := some 42, createdAt := some 7 }).1 = 200
    ∧ (mergeEvent (sampleEvent 1 1)
        { createdBy := some 9, id := some 42, createdAt := some 7 }).createdBy = 9
    ∧ (mergeEvent (sampleEvent 1 1)
        { createdBy := some 9, id := some 42, createdAt := some 7 }).id = 42
    ∧ (mergeEvent (sampleEvent 1 1)
        { createdBy := some 9, id := some 42, createdAt := some 7 }).createdAt = 7 := by
  have h := patch_raw_body_overwrites_protected_fields sampleStore ⟨1, "member"⟩ 1
    (sampleEvent 1 1) { createdBy := some 9, id := some 42, createdAt := some 7 }
    (by decide) (by decide)
  exact ⟨h.1, h.2.2.2.1 9 rfl, h.2.2.2.2.1 42 rfl, h.2.2.2.2.2 7 rfl⟩

/-! ## C3: partial update frame conditions -/

/-- C3. For every existing entity and partial update within the typed
`Partial<Insert...>` interface (so the patch carries no `id`/`createdAt` key),
the update returns the spread merge, which agrees with the old record on every
field the patch omits — in particular `id` and the creation timestamp never
change; the one exception is `SiteSetting`, whose update always refreshes
`updatedAt` to the current time (while preserving its identity and omitted
fields). -/
theorem update_frame_preservation :
    (∀ (s : MemStorage) (id : Nat) (e : Event) (p : EventPatch),
      getEvent s id = some e → p.id = none → p.createdAt = none →
        (updateEvent s id p).1 = some (mergeEvent e p)
        ∧ (mergeEvent e p).id = e.id
        ∧ (mergeEvent e p).createdAt = e.createdAt
        ∧ (p.title = none → (mergeEvent e p).title = e.title)
        ∧ (p.description = none → (mergeEvent e p).description = e.description)
        ∧ (p.eventType = none → (mergeEvent e p).eventType = e.eventType)
        ∧ (p.startTime = none → (mergeEvent e p).startTime = e.startTime)
        ∧ (p.endTime = none → (mergeEvent e p).endTime = e.endTime)
        ∧ (p.location = none → (mergeEvent e p).location = e.location)
        ∧ (p.createdBy = none → (mergeEvent e p).createdBy = e.createdBy))
    ∧ (∀ (s : MemStorage) (id : Nat) (w : User) (p : UserPatch),
      getUser s id = some w → p.id = none → p.createdAt = none →
        (updateUser s id p).1 = some (mergeUser w p)
        ∧ (mergeUser w p).id = w.id
        ∧ (mergeUser w p).createdAt = w.createdAt
        ∧ (p.username = none → (mergeUser w p).username = w.username)
        ∧ (p.password = none → (mergeUser w p).password = w.password)
        ∧ (p.name = none → (mergeUser w p).name = w.name)
        ∧ (p.email = none → (mergeUser w p).email = w.email)
        ∧ (p.role = none → (mergeUser w p).role = w.role)
        ∧ (p.avatarUrl = none → (mergeUser w p).avatarUrl = w.avatarUrl))
    ∧ (∀ (s : MemStorage) (id : Nat) (st : Study) (p : StudyPatch),
      getStudy s id = some st → p.id = none → p.createdAt = none →
        (updateStudy s id p).1 = some (mergeStudy st p)
        ∧ (mergeStudy st p).id = st.id
        ∧ (mergeStudy st p).createdAt = st.createdAt
        ∧ (p.title = none → (mergeStudy st p).title = st.title)
        ∧ (p.content = none → (mergeStudy st p).content = st.content)
        ∧ (p.category = none → (mergeStudy st p).category = st.category)
        ∧ (p.authorId = none → (mergeStudy st p).authorId = st.authorId)
        ∧ (p.fileUrl = none → (mergeStudy st p).fileUrl = st.fileUrl))
    ∧ (∀ (s : MemStorage) (id : Nat) (t : Post) (p : PostPatch),
      getPost s id = some t → p.id = none → p.createdAt = none →
        (updatePost s id p).1 = some (mergePost t p)
        ∧ (mergePost t p).id = t.id
        ∧ (mergePost t p).createdAt = t.createdAt
        ∧ (p.title = none → (mergePost t p).title = t.title)
        ∧ (p.content = none → (mergePost t p).content = t.content)
        ∧ (p.imageUrl = none → (mergePost t p).imageUrl = t.imageUrl)
        ∧ (p.authorId = none → (mergePost t p).authorId = t.authorId)
        ∧ (p.isPublished = none → (mergePost t p).isPublished = t.isPublished))
    ∧ (∀ (s : MemStorage) (id : Nat) (t : ForumTopic) (p : ForumTopicPatch),
      getForumTopic s id = some t → p.id = none → p.createdAt = none →
        (updateForumTopic s id p).1 = some (mergeForumTopic t p)
        ∧ (mergeForumTopic t p).id = t.id
        ∧ (mergeForumTopic t p).createdAt = t.createdAt
        ∧ (p.title = none → (mergeForumTopic t p).title = t.title)
        ∧ (p.content = none → (mergeForumTopic t p).content = t.content)
        ∧ (p.category = none → (mergeForumTopic t p).category = t.category)
        ∧ (p.authorId = none → (mergeForumTopic t p).authorId = t.authorId))
    ∧ (∀ (s : MemStorage) (id : Nat) (r : ForumReply) (p : ForumReplyPatch),
      getForumReply s id = some r → p.id = none → p.createdAt = none →
        (updateForumReply s id p).1 = some (mergeForumReply r p)
        ∧ (mergeForumReply r p).id = r.id
        ∧ (mergeForumReply r p).createdAt = r.createdAt
        ∧ (p.content = none → (mergeForumReply r p).content = r.content)
        ∧ (p.topicId = none → (mergeForumReply r p).topicId = r.topicId)
        ∧ (p.authorId = none → (mergeForumReply r p).authorId = r.authorId))
    ∧ (∀ (s : MemStorage) (id : Nat) (x : SiteSetting) (p : SiteSettingPatch) (now : Int),
      mapGet s.siteSettingsData id = some x →
        (updateSiteSetting s id p now).1 = some (mergeSiteSetting x p now)
        ∧ (mergeSiteSetting x p now).id = x.id
        ∧ (mergeSiteSetting x p now).updatedAt = now
        ∧ (p.key = none → (mergeSiteSetting x p now).key = x.key)
        ∧ (p.value = none → (mergeSiteSetting x p now).value = x.value)
        ∧ (p.updatedBy = none → (mergeSiteSetting x p now).updatedBy = x.updatedBy)) := by
  refine ⟨?_, ?_, ?_, ?_, ?_, ?_, ?_⟩
  · intro s id e p he hid hca
    exact ⟨by simp [updateEvent, he], by simp [mergeEvent, hid],
      by simp [mergeEvent, hca],
      fun h => by simp [mergeEvent, h], fun h => by simp [mergeEvent, h],
      fun h => by simp [mergeEvent, h], fun h => by simp [mergeEvent, h],
      fun h => by simp [mergeEvent, h], fun h => by simp [mergeEvent, h],
      fun h => by simp [mergeEvent, h]⟩
  · intro s id w p hw hid hca
    exact ⟨by simp [updateUser, hw], by simp [mergeUser, hid],
      by simp [mergeUser, hca],
      fun h => by simp [mergeUser, h], fun h => by simp [mergeUser, h],
      fun h => by simp [mergeUser, h], fun h => by simp [mergeUser, h],
      fun h => by simp [mergeUser, h], fun h => by simp [mergeUser, h]⟩
  · intro s id st p hst hid hca
    exact ⟨by simp [updateStudy, hst], by simp [mergeStudy, hid],
      by simp [mergeStudy, hca],
      fun h => by simp [mergeStudy, h], fun h => by simp [mergeStudy, h],
      fun h => by simp [mergeStudy, h], fun h => by simp [mergeStudy, h],
      fun h => by simp [mergeStudy, h]⟩
  · intro s id t p ht hid hca
    exact ⟨by simp [updatePost, ht], by simp [mergePost, hid],
      by simp [mergePost, hca],
      fun h => by simp [mergePost, h], fun h => by simp [mergePost, h],
      fun h => by simp [mergePost, h], fun h => by simp [mergePost, h],
      fun h => by simp [mergePost, h]⟩
  · intro s id t p ht hid hca
    exact ⟨by simp [updateForumTopic, ht], by simp [mergeForumTopic, hid],
      by simp [mergeForumTopic, hca],
      fun h => by simp [mergeForumTopic, h], fun h => by simp [mergeForumTopic, h],
      fun h => by simp [mergeForumTopic, h], fun h => by simp [mergeForumTopic, h]⟩
  · intro s id r p hr hid hca
    exact ⟨by simp [updateForumReply, hr], by simp [mergeForumReply, hid],
      by simp [mergeForumReply, hca],
      fun h => by simp [mergeForumReply, h], fun h => by simp [mergeForumReply, h],
      fun h => by simp [mergeForumReply, h]⟩
  · intro s id x p now hx
    exact ⟨by simp [updateSiteSetting, hx], by simp [mergeSiteSetting],
      by simp [mergeSiteSetting],
      fun h => by simp [mergeSiteSetting, h], fun h => by simp [mergeSiteSetting, h],
      fun h => by simp [mergeSiteSetting, h]⟩

/-- Witness for `update_frame_preservation`: a title-only patch on the sample
event keeps id, creation timestamp and the other fields; a value-only patch on
a concrete site setting refreshes `updatedAt`. -/
theorem update_frame_preservation_witness :
    ((updateEvent sampleStore 1 titlePatch).1
      = some (mergeEvent (sampleEvent 1 1) titlePatch)
    ∧ (mergeEvent (sampleEvent 1 1) titlePatch).id = 1
    ∧ (mergeEvent (sampleEvent 1 1) titlePatch).createdAt = 0
    ∧ (mergeEvent (sampleEvent 1 1) titlePatch).location = "l")
    ∧ (mergeSiteSetting sampleSetting valuePatch 99).updatedAt = 99 := by
  have he := update_frame_preservation.1 sampleStore 1 (sampleEvent 1 1)
    titlePatch (by decide) rfl rfl
  have hs := (update_frame_preservation.2.2.2.2.2.2
    sampleSettingsStore 1 sampleSetting valuePatch 99 (by decide)).2.2.1
  exact ⟨⟨he.1, by rw [he.2.1]; rfl, by rw [he.2.2.1]; rfl,
    by rw [he.2.2.2.2.2.2.2.2.1 rfl]; rfl⟩, hs⟩

/-! ## C1: existence-then-ownership gate on PATCH/DELETE -/

/-- C1. For an authenticated principal that is not an admin, PATCH and DELETE
on each owned entity kind (event, study, post, forum topic, forum reply)
answer 404 with the store untouched when no entity with that id exists, and —
when the entity exists but the principal is not its owner — 403 with the store
untouched; in both cases the repository update/delete is never invoked and the
status is never 200. -/
theorem ownership_gate_403_404 :
    (∀ (s : MemStorage) (u : Principal) (id : Nat) (body : EventPatch),
      (u.role != "admin") = true →
        (getEvent s id = none →
          patchEventRoute s u id body = (404, none, s)
          ∧ deleteEventRoute s u id = (404, s))
        ∧ (∀ e, getEvent s id = some e → (e.createdBy != u.id) = true →
          patchEventRoute s u id body = (403, none, s)
          ∧ deleteEventRoute s u id = (403, s)))
    ∧ (∀ (s : MemStorage) (u : Principal) (id : Nat) (body : StudyPatch),
      (u.role != "admin") = true →
        (getStudy s id = none →
          patchStudyRoute s u id body = (404, none, s)
          ∧ deleteStudyRoute s u id = (404, s))
        ∧ (∀ st, getStudy s id = some st → (st.authorId != u.id) = true →
          patchStudyRoute s u id body = (403, none, s)
          ∧ deleteStudyRoute s u id = (403, s)))
    ∧ (∀ (s : MemStorage) (u : Principal) (id : Nat) (body : PostPatch),
      (u.role != "admin") = true →
        (getPost s id = none →
          patchPostRoute s u id body = (404, none, s)
          ∧ deletePostRoute s u id = (404, s))
        ∧ (∀ t, getPost s id = some t → (t.authorId != u.id) = true →
          patchPostRoute s u id body = (403, none, s)
          ∧ deletePostRoute s u id = (403, s)))
    ∧ (∀ (s : MemStorage) (u : Principal) (id : Nat) (body : ForumTopicPatch),
      (u.role != "admin") = true →
        (getForumTopic s id = none →
          patchForumTopicRoute s u id body = (404, none, s)
          ∧ deleteForumTopicRoute s u id = (404, s))
        ∧ (∀ t, getForumTopic s id = some t → (t.authorId != u.id) = true →
          patchForumTopicRoute s u id body = (403, none, s)
          ∧ deleteForumTopicRoute s u id = (403, s)))
    ∧ (∀ (s : MemStorage) (u : Principal) (id : Nat) (body : ForumReplyPatch),
      (u.role != "admin") = true →
        (getForumReply s id = none →
          patchForumReplyRoute s u id body = (404, none, s)
          ∧ deleteForumReplyRoute s u id = (404, s))
        ∧ (∀ r, getForumReply s id = some r → (r.authorId != u.id) = true →
          patchForumReplyRoute s u id body = (403, none, s)
          ∧ deleteForumReplyRoute s u id = (403, s))) := by
  refine ⟨?_, ?_, ?_, ?_, ?_⟩
  · intro s u id body hrole
    constructor
    · intro h
      exact ⟨by simp [patchEventRoute, h], by simp [deleteEventRoute, h]⟩
    · intro e he hown
      exact ⟨by simp [patchEventRoute, he, hown, hrole],
        by simp [deleteEventRoute, he, hown, hrole]⟩
  · intro s u id body hrole
    constructor
    · intro h
      exact ⟨by simp [patchStudyRoute, h], by simp [deleteStudyRoute, h]⟩
    · intro st hst hown
      exact ⟨by simp [patchStudyRoute, hst, hown, hrole],
        by simp [deleteStudyRoute, hst, hown, hrole]⟩
  · intro s u id body hrole
    constructor
    · intro h
      exact ⟨by simp [patchPostRoute, h], by simp [deletePostRoute, h]⟩
    · intro t ht hown
      exact ⟨by simp [patchPostRoute, ht, hown, hrole],
        by simp [deletePostRoute, ht, hown, hrole]⟩
  · intro s u id body hrole
    constructor
    · intro h
      exact ⟨by simp [patchForumTopicRoute, h], by simp [deleteForumTopicRoute, h]⟩
    · intro t ht hown
      exact ⟨by simp [patchForumTopicRoute, ht, hown, hrole],
        by simp [deleteForumTopicRoute, ht, hown, hrole]⟩
  · intro s u id body hrole
    constructor
    · intro h
      exact ⟨by simp [patchForumReplyRoute, h], by simp [deleteForumReplyRoute, h]⟩
    · intro r hr hown
      exact ⟨by simp [patchForumReplyRoute, hr, hown, hrole],
        by simp [deleteForumReplyRoute, hr, hown, hrole]⟩

/-- Witness for `ownership_gate_403_404`: a non-admin stranger (id 2) PATCHing
and DELETEing event 1 (owned by user 1) gets 403 with the store untouched, and
gets 404 on the nonexistent event 99. -/
theorem ownership_gate_403_404_witness :
    (patchEventRoute sampleStore ⟨2, "member"⟩ 1 titlePatch
        = (403, none, sampleStore)
    ∧ deleteEventRoute sampleStore ⟨2, "member"⟩ 1 = (403, sampleStore))
    ∧ (patchEventRoute sampleStore ⟨2, "member"⟩ 99 titlePatch
        = (404, none, sampleStore)
    ∧ deleteEventRoute sampleStore ⟨2, "member"⟩ 99 = (404, sampleStore)) := by
  have h := ownership_gate_403_404.1 sampleStore ⟨2, "member"⟩ 1 titlePatch rfl
  have h99 := ownership_gate_403_404.1 sampleStore ⟨2, "member"⟩ 99 titlePatch rfl
  exact ⟨h.2 (sampleEvent 1 1) (by decide) rfl, h99.1 (by decide)⟩

/-! ## C2: user responses never depend on or contain the password -/

theorem mapGet_map_keyed {α β : Type} (g : Nat → α → β) (m : List (Nat × α)) (k : Nat) :
    mapGet (m.map (fun kv => (kv.1, g kv.1 kv.2))) k = (mapGet m k).map (g k) := by
  induction m with
  | nil => rfl
  | cons kv rest ih =>
      by_cases h : kv.1 == k
      · have hk : kv.1 = k := by simpa using h
        simp [mapGet, List.find?, h, hk]
      · simpa [mapGet, List.find?, h] using ih

theorem omitPassword_setPassword (u : User) (pw : String) :
    omitPassword { u with password := pw } = omitPassword u := rfl

theorem omitPassword_merge_no_pw (w : User) (pw : String) (body : UserPatch) :
    omitPassword (mergeUser { w with password := pw } { body with password := none })
      = omitPassword (mergeUser w { body with password := none }) := rfl

/-- C2. Both user-bearing responses are built through the
`const { password, ...rest }` destructure (`PublicUser` has no `password`
field), and they are invariant under arbitrary rewrites of every stored
password: `GET /api/users` returns the identical body, and `PATCH
/api/users/:id` returns the identical status and body, on `setPasswords f s`
and on `s`. -/
theorem user_responses_password_free (s : MemStorage) (f : Nat → String) :
    getUsersRoute (setPasswords f s) = getUsersRoute s
    ∧ ∀ (uid : Nat) (body : UserPatch),
        (patchUserRoute (setPasswords f s) uid body).1
          = (patchUserRoute s uid body).1
        ∧ (patchUserRoute (setPasswords f s) uid body).2.1
          = (patchUserRoute s uid body).2.1 := by
  constructor
  · simp only [getUsersRoute, getAllUsers, setPasswords, mapValues, List.map_map]
    exact congrArg (fun l => ((200 : Nat), l)) (List.map_congr_left (fun kv _ => rfl))
  · intro uid body
    have hmg : getUser (setPasswords f s) uid
        = (getUser s uid).map (fun w => { w with password := f uid }) := by
      simpa [getUser, setPasswords] using
        mapGet_map_keyed (fun k u => { u with password := f k }) s.usersData uid
    cases h : getUser s uid with
    | none =>
        rw [h] at hmg
        exact ⟨by simp [patchUserRoute, updateUser, hmg, h],
          by simp [patchUserRoute, updateUser, hmg, h]⟩
    | some w =>
        rw [h] at hmg
        exact ⟨by simp [patchUserRoute, updateUser, hmg, h],
          by simp [patchUserRoute, updateUser, hmg, h, omitPassword_merge_no_pw]⟩

/-! ## C6: created ids are fresh, positive, strictly increasing -/

theorem updateEvent_counter (s : MemStorage) (id : Nat) (p : EventPatch) :
    (updateEvent s id p).2.eventIdCounter = s.eventIdCounter := by
  cases h : getEvent s id <;> simp [updateEvent, h]

theorem runEventOps_pairwise_bound (ops : List EventOp) :
    ∀ (s : MemStorage) (now : Int),
      ((runEventOps s now ops).2).Pairwise (· < ·)
      ∧ ∀ i ∈ (runEventOps s now ops).2, s.eventIdCounter ≤ i := by
  induction ops with
  | nil => intro s now; simp [runEventOps]
  | cons op rest ih =>
      intro s now
      cases op with
      | create d =>
          have hrec := ih (createEvent s d now).2 now
          have hcnt : (createEvent s d now).2.eventIdCounter
              = s.eventIdCounter + 1 := rfl
          constructor
          · refine List.pairwise_cons.mpr ⟨?_, hrec.1⟩
            intro b hb
            have := hrec.2 b hb
            rw [hcnt] at this
            calc s.eventIdCounter < s.eventIdCounter + 1 := Nat.lt_succ_self _
              _ ≤ b := this
          · intro i hi
            rcases List.mem_cons.mp hi with hi' | hi'
            · rw [hi']; exact le_refl _
            · have := hrec.2 i hi'
              rw [hcnt] at this
              exact le_trans (Nat.le_succ _) this
      | update id p =>
          have hrec := ih (updateEvent s id p).2 now
          refine ⟨hrec.1, ?_⟩
          intro i hi
          have := hrec.2 i hi
          rwa [updateEvent_counter] at this
      | del id =>
          exact ih (deleteEvent s id).2 now

/-- C6. Interleave creates with updates and deletes arbitrarily: starting from
any store whose event id counter is at least 1 (as the constructor sets it),
the ids returned by the creates are pairwise in strictly increasing order,
all positive, and pairwise distinct — an id is never reused, even after the
record holding it is deleted. -/
theorem create_ids_strictly_increasing (s : MemStorage) (now : Int)
    (ops : List EventOp) (h : 1 ≤ s.eventIdCounter) :
    ((runEventOps s now ops).2).Pairwise (· < ·)
    ∧ (∀ i ∈ (runEventOps s now ops).2, 0 < i)
    ∧ ((runEventOps s now ops).2).Nodup := by
  have hpb := runEventOps_pairwise_bound ops s now
  refine ⟨hpb.1, ?_, ?_⟩
  · intro i hi
    exact lt_of_lt_of_le (Nat.lt_of_lt_of_le Nat.zero_lt_one h) (hpb.2 i hi)
  · exact hpb.1.imp (fun hlt => Nat.ne_of_lt hlt)

/-- Witness for `create_ids_strictly_increasing`: from a fresh store, create,
delete the created record, create twice more — the returned ids are 1, 2, 3
(id 1 is not reused after its deletion). -/
theorem create_ids_strictly_increasing_witness :
    (runEventOps MemStorage.new 0
        [EventOp.create ⟨"a", none, "t", 1, 2, "l", 1⟩, EventOp.del 1,
         EventOp.create ⟨"b", none, "t", 1, 2, "l", 1⟩,
         EventOp.create ⟨"c", none, "t", 1, 2, "l", 1⟩]).2 = [1, 2, 3]
    ∧ ((runEventOps MemStorage.new 0
        [EventOp.create ⟨"a", none, "t", 1, 2, "l", 1⟩, EventOp.del 1,
         EventOp.create ⟨"b", none, "t", 1, 2, "l", 1⟩,
         EventOp.create ⟨"c", none, "t", 1, 2, "l", 1⟩]).2).Nodup := by
  refine ⟨by decide, ?_⟩
  exact (create_ids_strictly_increasing MemStorage.new 0
    [EventOp.create ⟨"a", none, "t", 1, 2, "l", 1⟩, EventOp.del 1,
     EventOp.create ⟨"b", none, "t", 1, 2, "l", 1⟩,
     EventOp.create ⟨"c", none, "t", 1, 2, "l", 1⟩] (by decide)).2.2

/-! ## C4: site-settings upsert keeps keys unique -/

theorem nodup_key_unique {α : Type} (m : List (Nat × α))
    (hnd : (m.map (·.1)).Nodup) (k : Nat) (v : α) (hmem : (k, v) ∈ m) :
    ∀ kv ∈ m, kv.1 = k → kv.2 = v := by
  induction m with
  | nil => intro kv h; exact absurd h (List.not_mem_nil kv)
  | cons hd rest ih =>
      rw [List.map_cons, List.nodup_cons] at hnd
      intro kv hkv hk1
      rcases List.mem_cons.mp hkv with hkv' | hkv'
      · subst hkv'
        rcases List.mem_cons.mp hmem with hm | hm
        · rw [← hm]
        · exfalso
          apply hnd.1
          rw [hk1]
          exact List.mem_map.mpr ⟨(k, v), hm, rfl⟩
      · rcases List.mem_cons.mp hmem with hm | hm
        · exfalso
          apply hnd.1
          have hmm : kv.1 ∈ rest.map (·.1) := List.mem_map.mpr ⟨kv, hkv', rfl⟩
          rw [hk1] at hmm
          rw [← hm]
          exact hmm
        · exact ih hnd.2 hm kv hkv' hk1

theorem mapGet_of_mem_nodup {α : Type} (m : List (Nat × α))
    (hnd : (m.map (·.1)).Nodup) (k : Nat) (v : α) (hmem : (k, v) ∈ m) :
    mapGet m k = some v := by
  induction m with
  | nil => exact absurd hmem (List.not_mem_nil _)
  | cons hd rest ih =>
      rw [List.map_cons, List.nodup_cons] at hnd
      rcases List.mem_cons.mp hmem with hm | hm
      · rw [← hm]
        simp [mapGet, List.find?]
      · by_cases h1 : hd.1 = k
        · exfalso
          apply hnd.1
          rw [h1]
          exact List.mem_map.mpr ⟨(k, v), hm, rfl⟩
        · have h1b : (hd.1 == k) = false := beq_eq_false_iff_ne.mpr h1
          simpa [mapGet, List.find?, h1b] using ih hnd.2 hm

theorem mapSet_keys_of_has {α : Type} (m : List (Nat × α)) (kid : Nat) (w : α)
    (h : mapHas m kid = true) :
    (mapSet m kid w).map (·.1) = m.map (·.1) := by
  unfold mapSet
  rw [h]
  simp only [if_true, List.map_map]
  refine List.map_congr_left ?_
  intro kv _
  by_cases hk : kv.1 = kid
  · simp [hk]
  · simp [hk]

theorem count_replace (data : List (Nat × SiteSetting)) (kid : Nat) (w : SiteSetting)
    (h : ∀ kv ∈ data, kv.1 = kid → kv.2.key = w.key) (k : String) :
    (((data.map (fun kv => if kv.1 == kid then (kid, w) else kv)).map (·.2)).filter
        (fun st => st.key == k)).length
      = ((data.map (·.2)).filter (fun st => st.key == k)).length := by
  induction data with
  | nil => rfl
  | cons hd rest ih =>
      have hrest := ih (fun kv hkv => h kv (List.mem_cons_of_mem hd hkv))
      rw [List.map_map] at hrest
      simp only [beq_iff_eq] at hrest
      by_cases hk : hd.1 = kid
      · have hkey : hd.2.key = w.key := h hd (List.mem_cons_self hd rest) hk
        have hkb : (hd.1 == kid) = true := beq_iff_eq.mpr hk
        by_cases hkk : w.key = k
        · have h1 : (w.key == k) = true := beq_iff_eq.mpr hkk
          have h2 : (hd.2.key == k) = true := beq_iff_eq.mpr (hkey ▸ hkk)
          simp [List.map_map, List.filter, hkb, h1, h2, hrest]
        · have h1 : (w.key == k) = false := beq_eq_false_iff_ne.mpr hkk
          have h2 : (hd.2.key == k) = false :=
            beq_eq_false_iff_ne.mpr (by rw [hkey]; exact hkk)
          simp [List.map_map, List.filter, hkb, h1, h2, hrest]
      · have hkb : (hd.1 == kid) = false := beq_eq_false_iff_ne.mpr hk
        by_cases hkk : hd.2.key = k
        · have h2 : (hd.2.key == k) = true := beq_iff_eq.mpr hkk
          simp [List.map_map, List.filter, hkb, h2, hrest]
        · have h2 : (hd.2.key == k) = false := beq_eq_false_iff_ne.mpr hkk
          simp [List.map_map, List.filter, hkb, h2, hrest]

theorem getSiteSetting_none_count (s : MemStorage) (k : String)
    (h : getSiteSetting s k = none) : keyCount s k = 0 := by
  unfold getSiteSetting at h
  unfold keyCount
  rw [List.length_eq_zero]
  rw [List.find?_eq_none] at h
  exact List.filter_eq_nil.mpr h

theorem mapHas_iff {α : Type} (m : List (Nat × α)) (k : Nat) :
    mapHas m k = true ↔ ∃ kv ∈ m, kv.1 = k := by
  simp [mapHas, List.any_eq_true]

theorem mapSet_of_not_has {α : Type} (m : List (Nat × α)) (k : Nat) (v : α)
    (h : mapHas m k = false) : mapSet m k v = m ++ [(k, v)] := by
  simp [mapSet, h]

theorem mapSet_of_has {α : Type} (m : List (Nat × α)) (k : Nat) (v : α)
    (h : mapHas m k = true) :
    mapSet m k v = m.map (fun kv => if kv.1 == k then (k, v) else kv) := by
  simp [mapSet, h]

theorem getSiteSetting_some_facts (s : MemStorage) (k : String) (ex : SiteSetting)
    (h : getSiteSetting s k = some ex) :
    ex.key = k ∧ ex ∈ mapValues s.siteSettingsData := by
  unfold getSiteSetting at h
  constructor
  · have := List.find?_some h
    simpa using this
  · exact List.mem_of_find?_eq_some h

theorem settingsOk_new : settingsOk MemStorage.new := by
  refine ⟨by simp [MemStorage.new], by simp [MemStorage.new], ?_⟩
  intro k
  simp [keyCount, MemStorage.new, mapValues]

theorem upsert_preserves_settingsOk (s : MemStorage) (u : Principal) (k v : String)
    (now : Int) (hok : settingsOk s) :
    settingsOk (upsertSiteSetting s u k v now).2 := by
  obtain ⟨hnd, hbound, hcnt⟩ := hok
  cases hg : getSiteSetting s k with
  | none =>
      have hfresh : mapHas s.siteSettingsData s.siteSettingIdCounter = false := by
        rw [Bool.eq_false_iff]
        intro hc
        rcases (mapHas_iff _ _).mp hc with ⟨kv, hkv, hk1⟩
        exact absurd ((hbound kv hkv).1) (by rw [hk1]; exact lt_irrefl _)
      have hstate : (upsertSiteSetting s u k v now).2
          = { s with
              siteSettingsData := s.siteSettingsData
                ++ [(s.siteSettingIdCounter,
                     { id := s.siteSettingIdCounter, key := k, value := v,
                       updatedBy := u.id, updatedAt := now })],
              siteSettingIdCounter := s.siteSettingIdCounter + 1 } := by
        simp [upsertSiteSetting, hg, createSiteSetting, mapSet_of_not_has _ _ _ hfresh]
      rw [hstate]
      refine ⟨?_, ?_, ?_⟩
      · rw [List.map_append, List.nodup_append]
        refine ⟨hnd, List.nodup_singleton _, ?_⟩
        intro a ha hb
        rcases List.mem_map.mp ha with ⟨kv, hkv, hk1⟩
        have := (hbound kv hkv).1
        rw [hk1] at this
        simp only [List.map_cons, List.map_nil, List.mem_singleton] at hb
        rw [hb] at this
        exact lt_irrefl _ this
      · intro kv hkv
        rcases List.mem_append.mp hkv with hm | hm
        · exact ⟨Nat.lt_succ_of_lt (hbound kv hm).1, (hbound kv hm).2⟩
        · simp only [List.mem_singleton] at hm
          rw [hm]
          exact ⟨Nat.lt_succ_self _, rfl⟩
      · intro k'
        have hsplit : keyCount { s with
            siteSettingsData := s.siteSettingsData
              ++ [(s.siteSettingIdCounter,
                   { id := s.siteSettingIdCounter, key := k, value := v,
                     updatedBy := u.id, updatedAt := now })],
            siteSettingIdCounter := s.siteSettingIdCounter + 1 } k'
            = keyCount s k'
              + (if k == k' then 1 else 0) := by
          simp only [keyCount, mapValues, List.map_append, List.filter_append,
            List.length_append, List.map_cons, List.map_nil]
          by_cases hkk : k == k'
          · simp [List.filter, hkk]
          · simp [List.filter, hkk]
        rw [hsplit]
        by_cases hkk : k == k'
        · have hk' : k = k' := by simpa using hkk
          have h0 : keyCount s k' = 0 := by
            rw [← hk']
            exact getSiteSetting_none_count s k hg
          simp [hkk, h0]
        · have hb : (k == k') = false := by
            rw [Bool.eq_false_iff]; exact hkk
          simpa [hb] using hcnt k'
  | some ex =>
      have hfacts := getSiteSetting_some_facts s k ex hg
      rcases List.mem_map.mp hfacts.2 with ⟨kv, hkv, hkv2⟩
      have hkey1 : kv.1 = ex.id := by
        rw [← hkv2]
        exact ((hbound kv hkv).2).symm
      have hmem : (ex.id, ex) ∈ s.siteSettingsData := by
        have : kv = (ex.id, ex) := by
          rcases kv with ⟨a, b⟩
          simp only at hkey1 hkv2
          rw [hkey1, hkv2]
        rw [← this]
        exact hkv
      have hget : mapGet s.siteSettingsData ex.id = some ex :=
        mapGet_of_mem_nodup _ hnd _ _ hmem
      have hhas : mapHas s.siteSettingsData ex.id = true :=
        (mapHas_iff _ _).mpr ⟨(ex.id, ex), hmem, rfl⟩
      have hstate : (upsertSiteSetting s u k v now).2
          = { s with
              siteSettingsData := s.siteSettingsData.map
                (fun kv => if kv.1 == ex.id
                  then (ex.id, mergeSiteSetting ex
                    { key := some k, value := some v, updatedBy := some u.id } now)
                  else kv) } := by
        simp [upsertSiteSetting, hg, updateSiteSetting, hget,
          mapSet_of_has _ _ _ hhas]
      rw [hstate]
      have hkeys : (s.siteSettingsData.map
          (fun kv => if kv.1 == ex.id
            then (ex.id, mergeSiteSetting ex
              { key := some k, value := some v, updatedBy := some u.id } now)
            else kv)).map (·.1) = s.siteSettingsData.map (·.1) := by
        have := mapSet_keys_of_has s.siteSettingsData ex.id
          (mergeSiteSetting ex
            { key := some k, value := some v, updatedBy := some u.id } now) hhas
        rw [mapSet_of_has _ _ _ hhas] at this
        exact this
      refine ⟨?_, ?_, ?_⟩
      · rw [hkeys]; exact hnd
      · intro kv' hkv'
        rcases List.mem_map.mp hkv' with ⟨kv0, hkv0, hkv0eq⟩
        by_cases hc : kv0.1 == ex.id
        · rw [← hkv0eq]
          simp only [hc, if_true]
          have hcc : kv0.1 = ex.id := by simpa using hc
          refine ⟨?_, rfl⟩
          have := (hbound kv0 hkv0).1
          rw [hcc] at this
          exact this
        · rw [← hkv0eq]
          simp only [hc, if_false]
          exact hbound kv0 hkv0
      · intro k'
        have hh : ∀ kv0 ∈ s.siteSettingsData, kv0.1 = ex.id →
            kv0.2.key = (mergeSiteSetting ex
              { key := some k, value := some v, updatedBy := some u.id } now).key := by
          intro kv0 hkv0 hkid
          have := nodup_key_unique _ hnd ex.id ex hmem kv0 hkv0 hkid
          rw [this, hfacts.1]
          rfl
        have := count_replace s.siteSettingsData ex.id
          (mergeSiteSetting ex
            { key := some k, value := some v, updatedBy := some u.id } now) hh k'
        simp only [keyCount, mapValues]
        rw [this]
        exact hcnt k'

theorem postSiteSettingsRoute_state (s : MemStorage) (u : Principal)
    (body : SettingBody) (now : Int) :
    (postSiteSettingsRoute s u body now).2.2
      = if truthyKey body.key
          then (upsertSiteSetting s u (body.key.getD "") body.value now).2
          else s := by
  by_cases h : truthyKey body.key
  · cases hg : getSiteSetting s (body.key.getD "") <;>
      simp [postSiteSettingsRoute, upsertSiteSetting, h, hg]
  · simp [postSiteSettingsRoute, h]

theorem postSettingsSeq_preserves_settingsOk (u : Principal) (now : Int)
    (bodies : List SettingBody) :
    ∀ (s : MemStorage), settingsOk s → settingsOk (postSettingsSeq u now s bodies) := by
  induction bodies with
  | nil => intro s hok; exact hok
  | cons b bs ih =>
      intro s hok
      have hstep : settingsOk (postSiteSettingsRoute s u b now).2.2 := by
        rw [postSiteSettingsRoute_state]
        by_cases h : truthyKey b.key
        · rw [if_pos h]
          exact upsert_preserves_settingsOk s u (b.key.getD "") b.value now hok
        · rw [if_neg h]
          exact hok
      exact ih _ hstep

/-- C4. `POST /api/site-settings` with a (truthy) key answers 200 when a record
with that key already exists (updating it) and 201 when none does (creating
one); starting from the constructor's empty store, any sequence of such posts
leaves at most one live record per key (so `getSiteSetting` never has two
matches to choose from); in particular posting `{siteName, A}` then
`{siteName, B}` answers 201 then 200 and leaves exactly one `siteName` record,
with value `"B"`. -/
theorem site_setting_upsert_unique_key :
    (∀ (s : MemStorage) (u : Principal) (body : SettingBody) (now : Int),
      truthyKey body.key = true →
        ((∃ ex, getSiteSetting s (body.key.getD "") = some ex) →
          (postSiteSettingsRoute s u body now).1 = 200)
        ∧ (getSiteSetting s (body.key.getD "") = none →
          (postSiteSettingsRoute s u body now).1 = 201))
    ∧ (∀ (u : Principal) (now : Int) (bodies : List SettingBody) (k : String),
        keyCount (postSettingsSeq u now MemStorage.new bodies) k ≤ 1)
    ∧ (postSiteSettingsRoute MemStorage.new ⟨1, "admin"⟩ ⟨some "siteName", "A"⟩ 0).1
        = 201
    ∧ (postSiteSettingsRoute
        (postSiteSettingsRoute MemStorage.new ⟨1, "admin"⟩ ⟨some "siteName", "A"⟩ 0).2.2
        ⟨1, "admin"⟩ ⟨some "siteName", "B"⟩ 0).1 = 200
    ∧ keyCount (postSettingsSeq ⟨1, "admin"⟩ 0 MemStorage.new
        [⟨some "siteName", "A"⟩, ⟨some "siteName", "B"⟩]) "siteName" = 1
    ∧ (getSiteSetting (postSettingsSeq ⟨1, "admin"⟩ 0 MemStorage.new
        [⟨some "siteName", "A"⟩, ⟨some "siteName", "B"⟩]) "siteName").map
          (fun st => st.value) = some "B" := by
  refine ⟨?_, ?_, by decide, by decide, by decide, by decide⟩
  · intro s u body now htr
    constructor
    · rintro ⟨ex, hex⟩
      simp [postSiteSettingsRoute, htr, hex]
    · intro hnone
      simp [postSiteSettingsRoute, htr, hnone]
  · intro u now bodies k
    exact (postSettingsSeq_preserves_settingsOk u now bodies
      MemStorage.new settingsOk_new).2.2 k

/-- Witness for `site_setting_upsert_unique_key`: a post for the already-stored
key `siteName` answers 200, a post for a fresh key answers 201, and a concrete
one-element sequence keeps the key count at most 1. -/
theorem site_setting_upsert_unique_key_witness :
    (postSiteSettingsRoute sampleSettingsStore ⟨1, "admin"⟩
        ⟨some "siteName", "B"⟩ 0).1 = 200
    ∧ (postSiteSettingsRoute MemStorage.new ⟨1, "admin"⟩ ⟨some "k", "v"⟩ 0).1 = 201
    ∧ keyCount (postSettingsSeq ⟨1, "admin"⟩ 0 MemStorage.new
        [⟨some "a", "1"⟩]) "a" ≤ 1 := by
  have h1 := (site_setting_upsert_unique_key.1 sampleSettingsStore ⟨1, "admin"⟩
    ⟨some "siteName", "B"⟩ 0 (by decide)).1 ⟨sampleSetting, by decide⟩
  have h2 := (site_setting_upsert_unique_key.1 MemStorage.new ⟨1, "admin"⟩
    ⟨some "k", "v"⟩ 0 (by decide)).2 (by decide)
  have h3 := site_setting_upsert_unique_key.2.1 ⟨1, "admin"⟩ 0 [⟨some "a", "1"⟩] "a"
  exact ⟨h1, h2, h3⟩

/-! ## C5: batch upsert count and skipping -/

theorem batch_foldl_aux (u : Principal) (now : Int) (items : List SettingBody) :
    ∀ (c : Nat) (s : MemStorage),
      items.foldl
        (fun (acc : Nat × MemStorage) item =>
          if truthyKey item.key then
            let q := upsertSiteSetting acc.2 u (item.key.getD "") item.value now
            (acc.1 + 1, q.2)
          else acc) (c, s)
      = (c + (items.filter (fun i => truthyKey i.key)).length,
         (items.filter (fun i => truthyKey i.key)).foldl
           (fun st i => (upsertSiteSetting st u (i.key.getD "") i.value now).2) s) := by
  induction items with
  | nil => intro c s; simp
  | cons i is ih =>
      intro c s
      by_cases h : truthyKey i.key
      · simp only [List.foldl_cons, List.filter_cons, h, if_true]
        rw [ih]
        simp [List.length_cons, Nat.add_comm, Nat.add_assoc, Nat.add_left_comm]
      · simp only [List.foldl_cons, List.filter_cons, h]
        rw [if_neg (by simp [h])]
        exact ih c s

theorem upsertSiteSetting_stamps (s : MemStorage) (u : Principal) (k v : String)
    (now : Int) (x : SiteSetting) (hx : (upsertSiteSetting s u k v now).1 = some x) :
    x.updatedBy = u.id := by
  cases hg : getSiteSetting s k with
  | none =>
      simp only [upsertSiteSetting, hg, createSiteSetting, Option.some_inj] at hx
      rw [← hx]
  | some ex =>
      cases hm : mapGet s.siteSettingsData ex.id with
      | none =>
          simp only [upsertSiteSetting, hg, updateSiteSetting, hm] at hx
          exact absurd hx (by simp)
      | some y =>
          simp only [upsertSiteSetting, hg, updateSiteSetting, hm,
            Option.some_inj] at hx
          rw [← hx]
          rfl

/-- C5. `POST /api/site-settings/batch` answers 200 with `count` equal to the
number of items that carry a (truthy) key — items lacking a key are skipped
silently, not errors — and its state effect is exactly the in-order upsert
(update if the key exists, else create) of the non-skipped items, each stamping
the acting principal as `updatedBy`; on
`[{key:a, value:1}, {key:b, value:2}, {value:bad}]` the count is 2. -/
theorem site_settings_batch_count (s : MemStorage) (u : Principal)
    (items : List SettingBody) (now : Int) :
    (postSiteSettingsBatchRoute s u items now).1 = 200
    ∧ (postSiteSettingsBatchRoute s u items now).2.1
        = (items.filter (fun i => truthyKey i.key)).length
    ∧ (postSiteSettingsBatchRoute s u items now).2.2
        = (items.filter (fun i => truthyKey i.key)).foldl
            (fun st i => (upsertSiteSetting st u (i.key.getD "") i.value now).2) s
    ∧ (∀ (st : MemStorage) (k v : String) (x : SiteSetting),
        (upsertSiteSetting st u k v now).1 = some x → x.updatedBy = u.id)
    ∧ (postSiteSettingsBatchRoute MemStorage.new ⟨1, "admin"⟩
        [⟨some "a", "1"⟩, ⟨some "b", "2"⟩, ⟨none, "bad"⟩] 0).2.1 = 2 := by
  have haux := batch_foldl_aux u now items 0 s
  refine ⟨rfl, ?_, ?_, ?_, by decide⟩
  · show (items.foldl _ (0, s)).1 = _
    rw [haux]
    simp
  · show (items.foldl _ (0, s)).2 = _
    rw [haux]
  · intro st k v x hx
    exact upsertSiteSetting_stamps st u k v now x hx

/-- Witness for `site_settings_batch_count`: the spec example batch on the
fresh store yields status 200 and count 2, and a concrete create stamps the
admin as `updatedBy`. -/
theorem site_settings_batch_count_witness :
    (postSiteSettingsBatchRoute MemStorage.new ⟨7, "admin"⟩
        [⟨some "a", "1"⟩, ⟨some "b", "2"⟩, ⟨none, "bad"⟩] 0).1 = 200
    ∧ (postSiteSettingsBatchRoute MemStorage.new ⟨7, "admin"⟩
        [⟨some "a", "1"⟩, ⟨some "b", "2"⟩, ⟨none, "bad"⟩] 0).2.1 = 2
    ∧ ({ id := 1, key := "a", value := "1", updatedBy := 7,
          updatedAt := 0 } : SiteSetting).updatedBy = 7 := by
  have h := site_settings_batch_count MemStorage.new ⟨7, "admin"⟩
    [⟨some "a", "1"⟩, ⟨some "b", "2"⟩, ⟨none, "bad"⟩] 0
  refine ⟨h.1, by rw [h.2.1]; decide, ?_⟩
  exact h.2.2.2.1 MemStorage.new "a" "1"
    { id := 1, key := "a", value := "1", updatedBy := 7, updatedAt := 0 }
    (by decide)
